import Mathlib

/-!
Verification of the D3D12 post-vertex-shader capture engine
(`renderdoc/driver/d3d12/d3d12_postvs.cpp`).

The development shallowly embeds the algorithmic cores of
`D3D12Replay::CreateSOBuffers`, `D3D12Replay::InitPostVSBuffers` and
`D3D12Replay::GetPostVSBuffers` as executable Lean functions: machine
integers become `Nat` with explicit `% 2 ^ w` where truncation matters,
32-bit floats become exact rationals `ℚ`, GPU/driver results become
explicit oracle fields of a configuration record, and the routine's
early returns become nested conditionals producing a result record that
also tracks the externally observable effects (GPU submissions,
staging-buffer map/unmap balance).
-/

namespace RenderDoc

/-! ## Index rebasing (InitPostVSBuffers, indexed-draw path, lines 462-627) -/

/-- One step of the unique-index gathering loop (lines 483-488):
`std::lower_bound` finds the first element of the sorted array that is `≥ x`;
if that element equals `x` the insertion is skipped, otherwise `x` is
inserted at that position. -/
def insertUniqueSorted (l : List Nat) (x : Nat) : List Nat :=
  match l with
  | [] => [x]
  | y :: ys =>
    if x < y then x :: y :: ys
    else if x = y then y :: ys
    else y :: insertUniqueSorted ys x

/-- The unique-index gathering loop (lines 479-489): scan the read indices in
original draw order, folding duplicates into a sorted-unique accumulation. -/
def gatherUniqueIndices (idxs : List Nat) : List Nat :=
  idxs.foldl insertUniqueSorted []

/-- Lines 491-494: if fewer indices were read than the draw requested, the
out-of-range reads reference an implicit index 0; it is inserted at the front
unless the array is nonempty with first element already 0. -/
def addImplicitZero (numRead reqCount : Nat) (l : List Nat) : List Nat :=
  if numRead < reqCount ∧ (l = [] ∨ l.headI ≠ 0) then 0 :: l else l

/-- The full sorted-unique index array for an indexed draw (lines 474-494):
only `min available requested` indices are read from the buffer data. -/
def uniqueIndices (reqCount : Nat) (idxdata : List Nat) : List Nat :=
  addImplicitZero (idxdata.take reqCount).length reqCount
    (gatherUniqueIndices (idxdata.take reqCount))

/-- The old→new remap (lines 507-514). The source builds
`indexRemap[indices[i]] = i` for every position `i` of the duplicate-free
array `indices`; for a duplicate-free array that mapping sends each unique
value to its position, i.e. to `List.indexOf`. -/
def indexRemap (unique : List Nat) (v : Nat) : Nat :=
  unique.indexOf v

/-- The pipeline's configured index-buffer strip-cut (primitive restart)
value, `D3D12_INDEX_BUFFER_STRIP_CUT_VALUE` (lines 573-577). -/
inductive IBStripCutValue where
  | disabled
  | cutFFFF
  | cutFFFFFFFF
deriving DecidableEq

/-- Lines 573-577: the sentinel value derived from the pipeline description;
0 when primitive restart is disabled. -/
def stripCutOf : IBStripCutValue → Nat
  | .disabled => 0
  | .cutFFFF => 0xffff
  | .cutFFFFFFFF => 0xffffffff

/-- The index-buffer rewrite loop (lines 579-593): every read index is
replaced by its remapped value truncated to the index width
(`uint16_t(...)` / `uint32_t(...)`), except values equal to a nonzero
strip-cut sentinel, which are left unchanged. -/
def rewriteIndices (bitWidth stripCutValue : Nat) (unique : List Nat)
    (read : List Nat) : List Nat :=
  read.map fun v =>
    if stripCutValue ≠ 0 ∧ v = stripCutValue then v
    else indexRemap unique v % 2 ^ bitWidth

/-! ## Stream-output declaration building (lines 312-355 and 836-874) -/

/-- The system-value role of an output-signature parameter; the builder only
distinguishes the clip-space position (`ShaderBuiltin::Position`). -/
inductive SysValue where
  | position
  | other
deriving DecidableEq

/-- A shader output-signature parameter as exposed by reflection
(`SigParameter`): semantic identity, component count, system-value role and
output stream. -/
structure SigParameter where
  semanticName : String
  semanticIndex : Nat
  compCount : Nat
  systemValue : SysValue
  stream : Nat
deriving DecidableEq

/-- A `D3D12_SO_DECLARATION_ENTRY` as filled in by the builder. -/
structure SODeclarationEntry where
  stream : Nat
  outputSlot : Nat
  semanticName : String
  semanticIndex : Nat
  startComponent : Nat
  componentCount : Nat
deriving DecidableEq

/-- The declaration built from one signature entry (lines 322-336 / 849-861):
the component count is the low byte of the declared count (`& 0xff`,
i.e. `% 256`), but forced to exactly 4 for the clip-space position field. -/
def mkSODecl (sign : SigParameter) : SODeclarationEntry :=
  { stream := 0
    outputSlot := 0
    semanticName := sign.semanticName
    semanticIndex := sign.semanticIndex
    startComponent := 0
    componentCount :=
      if sign.systemValue = SysValue.position then 4 else sign.compCount % 256 }

/-- One iteration of the declaration-building loop (lines 320-340 / 841-865).
`skipOtherStreams` is true for the geometry/tessellation builder, which skips
signature entries whose stream is not 0 (lines 845-847); the accumulator is
(declarations so far, stride so far, recorded position index, -1 if none). -/
def buildSODeclsStep (skipOtherStreams : Bool)
    (acc : List SODeclarationEntry × Nat × Int) (sign : SigParameter) :
    List SODeclarationEntry × Nat × Int :=
  if skipOtherStreams ∧ sign.stream ≠ 0 then acc
  else
    let decl := mkSODecl sign
    let posidx :=
      if sign.systemValue = SysValue.position then (acc.1.length : Int) else acc.2.2
    (acc.1 ++ [decl], acc.2.1 + decl.componentCount * 4, posidx)

/-- The declaration-building loop over an output signature, starting from
empty declarations, `stride = 0` and `posidx = -1` (lines 312-340 / 836-865). -/
def buildSODecls (skipOtherStreams : Bool) (sig : List SigParameter) :
    List SODeclarationEntry × Nat × Int :=
  sig.foldl (buildSODeclsStep skipOtherStreams) ([], 0, -1)

/-- Lines 342-346 (vertex-stage builder only): a degenerate zero stride falls
back to 4 bytes. -/
def fixupStride (stride : Nat) : Nat :=
  if stride = 0 then 4 else stride

/-- Lines 348-355 / 867-874: if the recorded position index is positive, the
position attribute is erased and reinserted at index 0, keeping the order of
the other entries; a position already first (or absent) is left alone. -/
def shiftPosFirst (decls : List SODeclarationEntry) (posidx : Int) :
    List SODeclarationEntry :=
  if 0 < posidx then
    match decls.get? posidx.toNat with
    | some pos => pos :: decls.eraseIdx posidx.toNat
    | none => decls
  else decls

/-! ## Output topology fixup (lines 1387-1399) -/

/-- The D3D primitive topologies relevant to the geometry/tessellation
result; `patchList n` covers the control-point patch topologies. -/
inductive PrimitiveTopology where
  | undefined
  | pointList
  | lineList
  | lineStrip
  | triangleList
  | triangleStrip
  | lineListAdj
  | lineStripAdj
  | triangleListAdj
  | triangleStripAdj
  | patchList (controlPoints : Nat)
deriving DecidableEq

/-- Lines 1391-1399: stream output expands strips, so a strip output
topology is reported as the corresponding list topology; everything else is
passed through. -/
def expandStripTopology (t : PrimitiveTopology) : PrimitiveTopology :=
  if t = PrimitiveTopology.triangleStrip then PrimitiveTopology.triangleList
  else if t = PrimitiveTopology.lineStrip then PrimitiveTopology.lineList
  else if t = PrimitiveTopology.triangleStripAdj then PrimitiveTopology.triangleListAdj
  else if t = PrimitiveTopology.lineStripAdj then PrimitiveTopology.lineListAdj
  else t

/-- Strip topologies (the four cases rewritten by the fixup). -/
def PrimitiveTopology.isStrip : PrimitiveTopology → Bool
  | .triangleStrip => true
  | .lineStrip => true
  | .triangleStripAdj => true
  | .lineStripAdj => true
  | _ => false

/-! ## Multi-instance byte-counter decoding (lines 1242-1262) -/

/-- Per-instance decoded extents (`D3D12PostVSData::InstData`). -/
structure InstData where
  numVerts : Nat
  bufOffset : Nat
deriving DecidableEq

/-- The decoding loop of lines 1244-1256: walk the cumulative byte counters
with `prevByteCount` starting at 0; instance `i` contributes the 64-bit
(wrapping) difference between consecutive cumulative counts divided by the
stride, truncated by line 1251's `uint32_t(...)` cast (`% 2 ^ 32`), as its
vertex count, and the previous cumulative count as its buffer offset. -/
def decodeInstLoop (stride prev : Nat) : List Nat → List InstData
  | [] => []
  | byteCount :: rest =>
    ⟨(byteCount + 2 ^ 64 - prev) % 2 ^ 64 / stride % 2 ^ 32, prev⟩ ::
      decodeInstLoop stride byteCount rest

/-- `prevByteCount` after the loop (line 1258): the last cumulative counter,
or the initial value if there were none. -/
def finalCumulative (prev : Nat) : List Nat → Nat
  | [] => prev
  | byteCount :: rest => finalCumulative byteCount rest

/-- The `counter[i-1]` of the claim, with `counter[-1] = prev`. -/
def prevCounter (prev : Nat) (counters : List Nat) (i : Nat) : Nat :=
  match i with
  | 0 => prev
  | j + 1 => counters.getD j 0

/-! ## Scratch pool recreation (CreateSOBuffers, lines 47-161) -/

/-- Failure injection for the four device-object creations in
`CreateSOBuffers`: the SO output buffer, the readback staging buffer, the
worst-case patched index buffer, and the statistics query heap. -/
structure SOAllocFail where
  soBuffer : Bool
  stagingBuffer : Bool
  patchedIndexBuffer : Bool
  queryHeap : Bool
deriving DecidableEq

/-- Result of `CreateSOBuffers`: success flag, the resulting
`m_SOBufferSize`, and how many device-object creation calls were made. -/
structure SOCreateResult where
  ok : Bool
  newSize : Nat
  allocAttempts : Nat
deriving DecidableEq

/-- `D3D12Replay::CreateSOBuffers` (lines 47-161): a requested size at or
above 0xFFFF0000 bytes is rejected up front (lines 56-64), resetting
`m_SOBufferSize` to 0 with no allocation attempted; each of the four
object-creation failures resets the size to 0 and returns failure; on
success the size is kept. -/
def createSOBuffers (size : Nat) (f : SOAllocFail) : SOCreateResult :=
  if 0xFFFF0000 ≤ size then ⟨false, 0, 0⟩
  else if f.soBuffer then ⟨false, 0, 1⟩
  else if f.stagingBuffer then ⟨false, 0, 2⟩
  else if f.patchedIndexBuffer then ⟨false, 0, 3⟩
  else if f.queryHeap then ⟨false, 0, 4⟩
  else ⟨true, size, 4⟩

/-! ## Near/far plane inference (lines 729-788 and 1313-1372) -/

/-- A clip-space position sample; the 32-bit float lanes are modelled as
exact rationals. -/
structure Vec4 where
  x : ℚ
  y : ℚ
  z : ℚ
  w : ℚ
deriving DecidableEq

/-- `FLT_MAX`, the largest finite 32-bit float, as an exact rational. -/
def fltMax : ℚ := (2 - 1 / 2 ^ 23) * 2 ^ 127

/-- The two-point solve of the comment block at lines 738-754: fit
`z = w * m + c` through `pos0` and `pos`, returning `(m, c)`
(`m = (B.y - A.y) / (B.x - A.x)`, `c = B.y - B.x * m` with
`A = (pos0.w, pos0.z)`, `B = (pos.w, pos.z)`). -/
def solveMC (pos0 pos : Vec4) : ℚ × ℚ :=
  ((pos.z - pos0.z) / (pos.w - pos0.w),
   pos.z - pos.w * ((pos.z - pos0.z) / (pos.w - pos0.w)))

/-- The near/far pair produced from an accepted solution:
`(near, far) = (-c / m, c / (1 - m))` (lines 772-773). -/
def solveNearFar (pos0 pos : Vec4) : ℚ × ℚ :=
  (-(solveMC pos0 pos).2 / (solveMC pos0 pos).1,
   (solveMC pos0 pos).2 / (1 - (solveMC pos0 pos).1))

/-- The scan loop of lines 736-779: walk the samples after the first; once a
sample differs from `pos0` by more than 0.01 in both w and z, solve for
`(m, c)`; solutions with `m = 1`, `c = 0` or derived near plane
`-c / m ≤ 0.000001` are skipped (`continue`) and the scan goes on; the first
surviving solution yields `(near, far) = (-c / m, c / (1 - m))`. -/
def findNearFar (pos0 : Vec4) : List Vec4 → Option (ℚ × ℚ)
  | [] => none
  | pos :: rest =>
    if |pos.w - pos0.w| > 1 / 100 ∧ |pos.z - pos0.z| > 1 / 100 then
      if (solveMC pos0 pos).1 = 1 ∨ (solveMC pos0 pos).2 = 0 then
        findNearFar pos0 rest
      else if -(solveMC pos0 pos).2 / (solveMC pos0 pos).1 ≤ 1 / 1000000 then
        findNearFar pos0 rest
      else some (solveNearFar pos0 pos)
    else findNearFar pos0 rest

/-- Lines 729-788: the full near/far derivation. The scan only runs when the
captured position field has 4 components; with no surviving pair, a first
sample with positive z and w greater than z is detected as reversed-z with
`FLT_MAX` far plane; otherwise the defaults near = 0.1, far = 100 remain. -/
def deriveNearFar (numPosComponents : Nat) (pos0 : Vec4) (rest : List Vec4) :
    ℚ × ℚ :=
  match (if numPosComponents = 4 then findNearFar pos0 rest else none) with
  | some nf => nf
  | none =>
    if pos0.z > 0 ∧ pos0.w > pos0.z then (pos0.z, fltMax)
    else (1 / 10, 100)

/-- The scan as the claim words it: identical to `findNearFar`, except that
a solution is rejected only when the derived near plane is not positive
(`-c / m ≤ 0`), rather than when it is at or below 0.000001. Stated from the
spec's words for comparison against the source-derived `findNearFar`. -/
def findNearFarClaimed (pos0 : Vec4) : List Vec4 → Option (ℚ × ℚ)
  | [] => none
  | pos :: rest =>
    if |pos.w - pos0.w| > 1 / 100 ∧ |pos.z - pos0.z| > 1 / 100 then
      if (solveMC pos0 pos).1 = 1 ∨ (solveMC pos0 pos).2 = 0 then
        findNearFarClaimed pos0 rest
      else if -(solveMC pos0 pos).2 / (solveMC pos0 pos).1 ≤ 0 then
        findNearFarClaimed pos0 rest
      else some (solveNearFar pos0 pos)
    else findNearFarClaimed pos0 rest

/-- Acceptance of a sample by the code's scan, as a boolean predicate:
differs from the first sample by more than 0.01 in both coordinates and
yields a non-degenerate solution whose derived near plane exceeds
0.000001. -/
def sampleAccepted (pos0 pos : Vec4) : Bool :=
  decide (|pos.w - pos0.w| > 1 / 100 ∧ |pos.z - pos0.z| > 1 / 100) &&
  !decide ((solveMC pos0 pos).1 = 1 ∨ (solveMC pos0 pos).2 = 0) &&
  !decide (-(solveMC pos0 pos).2 / (solveMC pos0 pos).1 ≤ 1 / 1000000)

/-! ## InitPostVSBuffers control flow (lines 176-1410) -/

/-- Status messages attached to a stage result, one constructor per
status-string assignment in the source; `ok` is the empty status. -/
inductive SOStatus where
  | ok
  | noPipeline
  | noGraphicsPipeline
  | noVertexShader
  | emptyDrawIndices
  | emptyDrawInstances
  | vsProcessingError
  | noGSNoTess
  | rootSigFail
  | vsPipeFail
  | vsOOM
  | vsMapFail
  | noVertexData
  | gsPipeFail
  | gsStatsFail
  | gsOOM
  | gsMapFail
  | noGSData
deriving DecidableEq

/-- One stage of `D3D12PostVSData` (`StageData`): status plus the decoded
output description; buffer handles are modelled as presence flags. -/
structure StageData where
  status : SOStatus
  hasBuf : Bool
  vertStride : Nat
  nearPlane : ℚ
  farPlane : ℚ
  useIndices : Bool
  numVerts : Nat
  instStride : Nat
  hasIdxBuf : Bool
  idxFmt16 : Bool
  hasPosOut : Bool
  topo : PrimitiveTopology
  instData : List InstData
deriving DecidableEq

/-- A default-constructed stage (empty status, no buffers). -/
def StageData.empty : StageData :=
  ⟨SOStatus.ok, false, 0, 0, 0, false, 0, 0, false, false, false,
    PrimitiveTopology.undefined, []⟩

/-- Attach a status to a stage result. -/
def setStatus (s : StageData) (st : SOStatus) : StageData :=
  { s with status := st }

/-- Oracle for the externally determined outcomes of the vertex-stage pass:
root-signature and pipeline creation (lines 298, 398), the `CreateSOBuffers`
allocation outcomes (lines 432/531), the staging map (line 665), the byte
counter read back (line 678), and the decoded position samples. -/
structure VSOracle where
  rootSigCreateOK : Bool
  pipeCreateOK : Bool
  soAllocFail : SOAllocFail
  mapOK : Bool
  bytesWritten : Nat
  sample0 : Vec4
  samplesRest : List Vec4
deriving DecidableEq

/-- Oracle for the geometry/tessellation pass: pipeline creation (line 894),
the statistics maps (lines 965/1150, and the post-resize re-probe),
the probe's reported storage requirement, the `CreateSOBuffers` outcomes,
the final readback map (line 1226), the counter slots (lines 1238-1262) and
the decoded position samples. -/
structure GSOracle where
  pipeCreateOK : Bool
  statsMapOK : Bool
  statsMapOK2 : Bool
  primsStorageNeeded : Nat
  soAllocFail : SOAllocFail
  finalMapOK : Bool
  counters : List Nat
  sample0 : Vec4
  samplesRest : List Vec4
deriving DecidableEq

/-- One recorded draw plus the render state and oracles consulted by
`InitPostVSBuffers`. -/
structure DrawConfig where
  pipeBound : Bool
  isGraphics : Bool
  hasVS : Bool
  topo : PrimitiveTopology
  numIndices : Nat
  numInstances : Nat
  indexed : Bool
  instanced : Bool
  hasGS : Bool
  hasDS : Bool
  gsOutputTopology : PrimitiveTopology
  rootSigHasSOFlag : Bool
  vsOutputSig : List SigParameter
  lastOutputSig : List SigParameter
  ibufferBound : Bool
  ibufferData : List Nat
  ibufferWidth16 : Bool
  stripCut : IBStripCutValue
  soBufferSize : Nat
  vs : VSOracle
  gs : GSOracle
deriving DecidableEq

/-- The observable outcome of one `InitPostVSBuffers` call: the cache entry
(vsin topology, two stage results), the scratch pool size, and effect
counters — GPU submissions (`ExecuteCommandLists`), and successful staging
buffer maps/unmaps. -/
structure RunResult where
  vsinTopo : PrimitiveTopology
  vsout : StageData
  gsout : StageData
  soBufferSize : Nat
  gpuSubmits : Nat
  stagingMaps : Nat
  stagingUnmaps : Nat
  gsAttempted : Bool
deriving DecidableEq

/-- Modelled from the spec: `CalcMeshOutputSize` is repository code outside
this file (only called here); the spec describes it as a growth function of
(currentCapacity, requiredBytes) that "at minimum doubles and at minimum
satisfies requiredBytes". -/
def calcMeshOutputSize (curSize required : Nat) : Nat :=
  max (curSize * 2) required

/-- `AlignUp(numInstances * sizeof(UINT64), 64)` (line 981). -/
def alignUp64 (x : Nat) : Nat :=
  (x + 63) / 64 * 64

/-- Counter slot `i` of the mapped staging buffer (lines 1238-1262). -/
def countersAt (g : GSOracle) (i : Nat) : Nat :=
  g.counters.getD i 0

/-- Lines 176-830 of `InitPostVSBuffers`: early-out checks, root-signature
patching, and the vertex-stage capture and decode. `Sum.inl` is an early
`return`; `Sum.inr` falls through to the geometry/tessellation stage. -/
def runVSPhase (cfg : DrawConfig) : Sum RunResult RunResult :=
  let base : RunResult :=
    ⟨PrimitiveTopology.undefined, StageData.empty, StageData.empty,
      cfg.soBufferSize, 0, 0, 0, false⟩
  if ¬cfg.pipeBound then
    Sum.inl { base with vsout := setStatus base.vsout SOStatus.noPipeline,
                        gsout := setStatus base.gsout SOStatus.noPipeline }
  else if ¬cfg.isGraphics then
    Sum.inl { base with vsout := setStatus base.vsout SOStatus.noGraphicsPipeline,
                        gsout := setStatus base.gsout SOStatus.noGraphicsPipeline }
  else if ¬cfg.hasVS then
    Sum.inl { base with vsout := setStatus base.vsout SOStatus.noVertexShader,
                        gsout := setStatus base.gsout SOStatus.noVertexShader }
  else
    -- lines 221-224: vsin/vsout topology recorded before the empty-draw checks
    let base := { base with vsinTopo := cfg.topo,
                            vsout := { base.vsout with topo := cfg.topo } }
    if cfg.numIndices = 0 then
      Sum.inl { base with vsout := setStatus base.vsout SOStatus.emptyDrawIndices,
                          gsout := setStatus base.gsout SOStatus.emptyDrawIndices }
    else if cfg.numInstances = 0 then
      Sum.inl { base with vsout := setStatus base.vsout SOStatus.emptyDrawInstances,
                          gsout := setStatus base.gsout SOStatus.emptyDrawInstances }
    else
      -- lines 266-279: the geometry/tessellation status is preset to a
      -- generic vertex-stage-error message when a GS or DS is bound
      let gsPreset := if cfg.hasGS ∨ cfg.hasDS then SOStatus.vsProcessingError
        else SOStatus.noGSNoTess
      let base := { base with gsout := setStatus base.gsout gsPreset }
      -- lines 285-310: derive a stream-out-capable root signature if needed
      if ¬cfg.rootSigHasSOFlag ∧ ¬cfg.vs.rootSigCreateOK then
        Sum.inl { base with vsout := setStatus base.vsout SOStatus.rootSigFail }
      else if ¬(cfg.vsOutputSig = []) then
        -- lines 318-355: vertex-stage stream-output declarations
        let built := buildSODecls false cfg.vsOutputSig
        let stride := fixupStride built.2.1
        let posidx := built.2.2
        -- lines 397-406: patched pipeline creation
        if ¬cfg.vs.pipeCreateOK then
          Sum.inl { base with vsout := setStatus base.vsout SOStatus.vsPipeFail }
        else
          -- lines 410-421: worst-case output size, grow the pool if needed
          let outputSize := cfg.numIndices * cfg.numInstances * stride + 64
          let size1 := if base.soBufferSize < outputSize
            then calcMeshOutputSize base.soBufferSize outputSize
            else base.soBufferSize
          let recreate1 := base.soBufferSize < outputSize
          -- lines 462-516: indexed draws read and rebase the index buffer,
          -- then resize again against the unique-index output size
          let idxdata := if cfg.indexed ∧ cfg.ibufferBound
            then cfg.ibufferData.take cfg.numIndices else []
          let indices := uniqueIndices cfg.numIndices idxdata
          let outputSize2 := indices.length * 4 * 16
          let sizeF := if cfg.indexed ∧ size1 < outputSize2
            then calcMeshOutputSize size1 outputSize2 else size1
          let recreateF := if cfg.indexed then recreate1 ∨ size1 < outputSize2
            else recreate1
          -- lines 427-437 / 526-537: recreate the pool, fail as OOM status
          if recreateF ∧ ¬(createSOBuffers sizeF cfg.vs.soAllocFail).ok then
            Sum.inl { base with soBufferSize := 0,
                                vsout := setStatus base.vsout SOStatus.vsOOM }
          else
            let base := { base with soBufferSize := sizeF }
            -- lines 440-657: record the patched draw, copy out, clear the
            -- counter and execute
            let base := { base with gpuSubmits := base.gpuSubmits + 1 }
            -- lines 663-674: map the staging buffer
            if ¬cfg.vs.mapOK then
              Sum.inl { base with vsout := setStatus base.vsout SOStatus.vsMapFail }
            else
              let base := { base with stagingMaps := base.stagingMaps + 1 }
              if cfg.vs.bytesWritten = 0 then
                -- lines 680-687: `ret = D3D12PostVSData()` resets both stage
                -- results and the status is set; this path returns WITHOUT
                -- unmapping the staging buffer
                Sum.inl { vsinTopo := PrimitiveTopology.undefined,
                          vsout := setStatus StageData.empty SOStatus.noVertexData,
                          gsout := StageData.empty,
                          soBufferSize := base.soBufferSize,
                          gpuSubmits := base.gpuSubmits,
                          stagingMaps := base.stagingMaps,
                          stagingUnmaps := base.stagingUnmaps,
                          gsAttempted := false }
              else
                -- lines 729-790: near/far inference, then unmap
                let nf := deriveNearFar (if 0 ≤ posidx then 4 else 0)
                  cfg.vs.sample0 cfg.vs.samplesRest
                let base := { base with stagingUnmaps := base.stagingUnmaps + 1 }
                -- lines 792-814: populate the vertex-stage result
                Sum.inr { base with
                  vsinTopo := cfg.topo,
                  vsout := {
                    status := SOStatus.ok
                    hasBuf := true
                    vertStride := stride
                    nearPlane := nf.1
                    farPlane := nf.2
                    useIndices := cfg.indexed
                    numVerts := cfg.numIndices
                    -- line 803: `uint32_t(numBytesWritten / ...)`
                    instStride := if cfg.instanced
                      then cfg.vs.bytesWritten / max 1 cfg.numInstances % 2 ^ 32
                      else 0
                    hasIdxBuf := cfg.indexed && !idxdata.isEmpty
                    idxFmt16 := cfg.ibufferWidth16
                    hasPosOut := decide (0 ≤ posidx)
                    topo := cfg.topo
                    instData := [] } }
      else
        -- lines 816-830: empty vertex output signature, an empty result
        Sum.inr { base with
          vsinTopo := cfg.topo,
          vsout := { StageData.empty with topo := cfg.topo } }

/-- Lines 1189-1407: the common geometry/tessellation decode tail — final
copy and execute, staging map, counter decode, near/far inference, result
population. -/
def gsDecodeTail (cfg : DrawConfig) (stride : Nat) (posidx : Int)
    (r : RunResult) : RunResult :=
  -- lines 1189-1220: copy to staging, clear the counter, execute
  let r1 := { r with gpuSubmits := r.gpuSubmits + 1 }
  -- lines 1224-1234: map the staging buffer
  if ¬cfg.gs.finalMapOK then { r1 with gsout := setStatus r1.gsout SOStatus.gsMapFail }
  else
    let r2 := { r1 with stagingMaps := r1.stagingMaps + 1 }
    -- lines 1238-1263: read the per-instance counter slots
    let instList := if 1 < cfg.numInstances
      then decodeInstLoop stride 0 ((List.range cfg.numInstances).map (countersAt cfg.gs))
      else []
    let numBytesWritten := if 1 < cfg.numInstances
      then finalCumulative 0 ((List.range cfg.numInstances).map (countersAt cfg.gs))
      else countersAt cfg.gs 0
    if numBytesWritten = 0 then
      -- lines 1265-1271: unmap before the early return
      { r2 with gsout := setStatus r2.gsout SOStatus.noGSData,
                stagingUnmaps := r2.stagingUnmaps + 1 }
    else
      -- lines 1313-1374: near/far inference, then unmap
      let nf := deriveNearFar (if 0 ≤ posidx then 4 else 0)
        cfg.gs.sample0 cfg.gs.samplesRest
      -- lines 1376-1406: populate the geometry/tessellation result
      { r2 with
        stagingUnmaps := r2.stagingUnmaps + 1,
        gsout := {
          status := SOStatus.ok
          hasBuf := true
          vertStride := stride
          nearPlane := nf.1
          farPlane := nf.2
          useIndices := false
          -- line 1401 casts `numVerts` to `uint32_t` before the
          -- per-instance division of line 1404
          numVerts := if cfg.instanced
            then numBytesWritten / stride % 2 ^ 32 / max 1 cfg.numInstances
            else numBytesWritten / stride % 2 ^ 32
          -- line 1379: `uint32_t(numBytesWritten / ...)`
          instStride := if cfg.instanced
            then numBytesWritten / max 1 cfg.numInstances % 2 ^ 32 else 0
          hasIdxBuf := false
          idxFmt16 := false
          hasPosOut := decide (0 ≤ posidx)
          topo := expandStripTopology cfg.gsOutputTopology
          instData := instList } }

/-- Lines 832-1407: the geometry/tessellation capture. The statistics probe
of a re-issued identical draw is modelled as reporting the same storage
requirement each time, so the single-instance probe loop runs at most twice
(the recreated capacity satisfies the requirement it was grown for). -/
def runGSPhase (cfg : DrawConfig) (r0 : RunResult) : RunResult :=
  -- line 834: the preset status is cleared
  let r := { r0 with gsAttempted := true, gsout := setStatus r0.gsout SOStatus.ok }
  -- lines 836-874: rebuild declarations from the last stage (stream 0 only,
  -- and no zero-stride fallback on this path)
  let built := buildSODecls true cfg.lastOutputSig
  let stride := built.2.1
  let posidx := built.2.2
  -- lines 893-902: patched pipeline creation
  if ¬cfg.gs.pipeCreateOK then { r with gsout := setStatus r.gsout SOStatus.gsPipeFail }
  else if 1 < cfg.numInstances then
    -- lines 913-957: aggregate statistics-only draw, resolve, execute
    let r1 := { r with gpuSubmits := r.gpuSubmits + 1 }
    -- lines 964-973: map for the statistics read
    if ¬cfg.gs.statsMapOK then { r1 with gsout := setStatus r1.gsout SOStatus.gsStatsFail }
    else
      -- lines 975-978: read the probe result and unmap
      let r2 := { r1 with stagingMaps := r1.stagingMaps + 1,
                          stagingUnmaps := r1.stagingUnmaps + 1 }
      -- lines 980-998: reserve counter slots, grow the pool if needed
      let outputSize := alignUp64 (cfg.numInstances * 8) +
        cfg.gs.primsStorageNeeded * 3 * stride
      if r2.soBufferSize < outputSize then
        let newSize := calcMeshOutputSize r2.soBufferSize outputSize
        if ¬(createSOBuffers newSize cfg.gs.soAllocFail).ok then
          { r2 with soBufferSize := 0, gsout := setStatus r2.gsout SOStatus.gsOOM }
        else
          -- lines 1002-1092: incremental per-instance draws with a flush
          -- every 1000 instances, then the final execute
          gsDecodeTail cfg stride posidx
            { r2 with soBufferSize := newSize,
                      gpuSubmits := r2.gpuSubmits + cfg.numInstances / 1000 + 1 }
      else
        gsDecodeTail cfg stride posidx
          { r2 with gpuSubmits := r2.gpuSubmits + cfg.numInstances / 1000 + 1 }
  else
    -- the single-instance probe loop (lines 1096-1187), first iteration:
    -- statistics pass and execute (lines 1101-1142)
    let r1 := { r with gpuSubmits := r.gpuSubmits + 1 }
    if ¬cfg.gs.statsMapOK then { r1 with gsout := setStatus r1.gsout SOStatus.gsStatsFail }
    else
      let r2 := { r1 with stagingMaps := r1.stagingMaps + 1 }
      let outputSize := cfg.gs.primsStorageNeeded * 3 * stride
      if r2.soBufferSize < outputSize then
        -- lines 1162-1177: the loop grows the pool and continues WITHOUT
        -- unmapping the staging buffer first
        let newSize := calcMeshOutputSize r2.soBufferSize outputSize
        if ¬(createSOBuffers newSize cfg.gs.soAllocFail).ok then
          { r2 with soBufferSize := 0, gsout := setStatus r2.gsout SOStatus.gsOOM }
        else
          -- second iteration: re-probe; the recreated capacity now
          -- satisfies the (identical) requirement, so the loop unmaps and
          -- breaks (lines 1180-1185)
          let r3 := { r2 with soBufferSize := newSize,
                              gpuSubmits := r2.gpuSubmits + 1 }
          if ¬cfg.gs.statsMapOK2 then
            { r3 with gsout := setStatus r3.gsout SOStatus.gsStatsFail }
          else
            gsDecodeTail cfg stride posidx
              { r3 with stagingMaps := r3.stagingMaps + 1,
                        stagingUnmaps := r3.stagingUnmaps + 1 }
      else
        -- lines 1180-1185: unmap and break
        gsDecodeTail cfg stride posidx
          { r2 with stagingUnmaps := r2.stagingUnmaps + 1 }

/-- `D3D12Replay::InitPostVSBuffers` (lines 176-1410) for one capture: the
vertex phase, then the geometry/tessellation phase when a geometry or
domain shader is bound (line 832). -/
def initPostVSModel (cfg : DrawConfig) : RunResult :=
  match runVSPhase cfg with
  | Sum.inl r => r
  | Sum.inr r => if cfg.hasGS ∨ cfg.hasDS then runGSPhase cfg r else r

/-- A concrete single-instance, non-indexed draw whose vertex pass succeeds
up to the readback but whose stream-out counter reads back zero bytes. -/
def zeroBytesConfig : DrawConfig :=
  { pipeBound := true, isGraphics := true, hasVS := true
    topo := PrimitiveTopology.pointList
    numIndices := 3, numInstances := 1
    indexed := false, instanced := false
    hasGS := false, hasDS := false
    gsOutputTopology := PrimitiveTopology.pointList
    rootSigHasSOFlag := true
    vsOutputSig := [SigParameter.mk "SV_Position" 0 4 SysValue.position 0]
    lastOutputSig := []
    ibufferBound := false, ibufferData := [], ibufferWidth16 := false
    stripCut := IBStripCutValue.disabled
    soBufferSize := 1024
    vs := { rootSigCreateOK := true, pipeCreateOK := true
            soAllocFail := ⟨false, false, false, false⟩
            mapOK := true, bytesWritten := 0
            sample0 := ⟨0, 0, 0, 1⟩, samplesRest := [] }
    gs := { pipeCreateOK := true, statsMapOK := true, statsMapOK2 := true
            primsStorageNeeded := 0, soAllocFail := ⟨false, false, false, false⟩
            finalMapOK := true, counters := [], sample0 := ⟨0, 0, 0, 1⟩
            samplesRest := [] } }

/-- A draw with a geometry shader bound whose stream-out root-signature
creation fails. -/
def rootSigFailConfig : DrawConfig :=
  { zeroBytesConfig with
    hasGS := true,
    lastOutputSig := [SigParameter.mk "SV_Position" 0 4 SysValue.position 0],
    rootSigHasSOFlag := false,
    vs := { zeroBytesConfig.vs with rootSigCreateOK := false } }

/-- A draw with zero instances. -/
def zeroInstanceConfig : DrawConfig :=
  { zeroBytesConfig with numInstances := 0 }

/-- A draw with a geometry shader bound whose patched vertex-stage pipeline
creation fails (line 398). -/
def vsPipeFailConfig : DrawConfig :=
  { rootSigFailConfig with
    rootSigHasSOFlag := true,
    vs := { rootSigFailConfig.vs with rootSigCreateOK := true, pipeCreateOK := false } }

/-- A draw with a geometry shader bound whose vertex-stage scratch-pool
recreation fails (the pool starts empty, so the draw forces a resize, and
the SO buffer allocation is injected to fail; lines 427-437). -/
def vsOOMConfig : DrawConfig :=
  { rootSigFailConfig with
    rootSigHasSOFlag := true,
    soBufferSize := 0,
    vs := { rootSigFailConfig.vs with rootSigCreateOK := true, soAllocFail := ⟨true, false, false, false⟩ } }

/-- A draw with a geometry shader bound whose vertex-stage staging-buffer
map fails (line 665). -/
def vsMapFailConfig : DrawConfig :=
  { rootSigFailConfig with
    rootSigHasSOFlag := true,
    vs := { rootSigFailConfig.vs with rootSigCreateOK := true, mapOK := false } }

/-! ## Result cache and aliasing (lines 163-185 and 1412-1537) -/

/-- A cached `D3D12PostVSData` entry. -/
structure PostVSData where
  vsinTopo : PrimitiveTopology
  vsout : StageData
  gsout : StageData
deriving DecidableEq

/-- The post-VS cache state: the alias table `m_PostVSAlias` (alias event id
→ primary event id) and the result cache `m_PostVSData`, as association
lists with most-recent-first lookup. -/
structure PostVSCache where
  aliasTable : List (Nat × Nat)
  cache : List (Nat × PostVSData)
deriving DecidableEq

/-- Lines 178-180 / 1467-1469: resolve an event id through the alias table
before any cache access. -/
def resolveAlias (aliasTable : List (Nat × Nat)) (eventId : Nat) : Nat :=
  match aliasTable.lookup eventId with
  | some primary => primary
  | none => eventId

/-- Modelled from the spec: `AliasPostVSBuffers(primary, alias)` is
repository code outside this file (invoked through the action callback at
line 1441); the spec says it "records that aliasDrawId should resolve
through primaryDrawId's cache entry instead of capturing independently". -/
def aliasPostVSBuffers (s : PostVSCache) (primary aliasId : Nat) : PostVSCache :=
  { s with aliasTable := (aliasId, primary) :: s.aliasTable }

/-- Lines 176-185: capture initialization resolves aliasing, returns
immediately (doing no work) when the canonical event is already cached, and
otherwise computes and stores the entry; `capture` abstracts the body.
Returns the new state and whether capture work was done. -/
def initPostVSCached (s : PostVSCache) (eventId : Nat)
    (capture : Nat → PostVSData) : PostVSCache × Bool :=
  let e := resolveAlias s.aliasTable eventId
  if (s.cache.lookup e).isSome then (s, false)
  else ({ s with cache := (e, capture e) :: s.cache }, true)

/-- The caller-facing mesh description assembled by `GetPostVSBuffers`
(lines 1482-1536); resource handles are modelled as presence flags. -/
structure MeshFormat where
  hasIndexResource : Bool
  indexByteStride : Nat
  hasVertexResource : Bool
  vertexByteOffset : Nat
  vertexByteStride : Nat
  topology : PrimitiveTopology
  numIndices : Nat
  unproject : Bool
  nearPlane : ℚ
  farPlane : ℚ
  status : SOStatus
deriving DecidableEq

/-- `D3D12Replay::GetPostVSBuffers` (lines 1464-1537): resolve aliasing,
consult the cache (a missing entry is the default-erased data), select the
requested stage (`useGS` picks the geometry/tessellation result), and build
the mesh description, applying the per-instance offset/count override when
`instID` indexes the recorded per-instance data. -/
def getPostVSBuffers (s : PostVSCache) (eventId instID : Nat) (useGS : Bool) :
    MeshFormat :=
  let e := resolveAlias s.aliasTable eventId
  let postvs := match s.cache.lookup e with
    | some d => d
    | none => ⟨PrimitiveTopology.undefined, StageData.empty, StageData.empty⟩
  let st := if useGS then postvs.gsout else postvs.vsout
  { hasIndexResource := st.useIndices && st.hasIdxBuf
    indexByteStride :=
      if st.useIndices && st.hasIdxBuf then (if st.idxFmt16 then 2 else 4) else 0
    hasVertexResource := st.hasBuf
    vertexByteOffset :=
      if instID < st.instData.length
      then (st.instData.getD instID ⟨0, 0⟩).bufOffset
      else st.instStride * instID
    vertexByteStride := st.vertStride
    topology := st.topo
    numIndices :=
      if instID < st.instData.length
      then (st.instData.getD instID ⟨0, 0⟩).numVerts
      else st.numVerts
    unproject := st.hasPosOut
    nearPlane := st.nearPlane
    farPlane := st.farPlane
    status := st.status }

/-- A concrete cached entry and a cache state for the aliasing witness. -/
def examplePostVSData : PostVSData :=
  ⟨PrimitiveTopology.pointList, StageData.empty, StageData.empty⟩

/-- A cache holding a result for event 3. -/
def exampleCache : PostVSCache :=
  ⟨[], [(3, examplePostVSData)]⟩

/-! ## Theorems -/

theorem insertUniqueSorted_mem {l : List Nat} {x y : Nat} :
    y ∈ insertUniqueSorted l x ↔ y = x ∨ y ∈ l := by
  induction l with
  | nil => simp [insertUniqueSorted]
  | cons z zs ih =>
    simp only [insertUniqueSorted]
    split_ifs with h1 h2
    · simp [List.mem_cons]
    · subst h2
      simp only [List.mem_cons]
      tauto
    · simp only [List.mem_cons, ih]
      tauto

theorem insertUniqueSorted_sorted {l : List Nat} {x : Nat}
    (h : List.Sorted (· < ·) l) :
    List.Sorted (· < ·) (insertUniqueSorted l x) := by
  induction l with
  | nil => simp [insertUniqueSorted]
  | cons z zs ih =>
    have hz : ∀ b ∈ zs, z < b := (List.sorted_cons.mp h).1
    have hzs : List.Sorted (· < ·) zs := (List.sorted_cons.mp h).2
    simp only [insertUniqueSorted]
    split_ifs with h1 h2
    · refine List.sorted_cons.mpr ⟨?_, h⟩
      intro b hb
      rcases List.mem_cons.mp hb with rfl | hb
      · exact h1
      · exact h1.trans (hz b hb)
    · exact h
    · have hzx : z < x := by omega
      refine List.sorted_cons.mpr ⟨?_, ih hzs⟩
      intro b hb
      rcases insertUniqueSorted_mem.mp hb with rfl | hb
      · exact hzx
      · exact hz b hb

theorem gatherUniqueIndices_aux (idxs : List Nat) (acc : List Nat)
    (hacc : List.Sorted (· < ·) acc) :
    List.Sorted (· < ·) (idxs.foldl insertUniqueSorted acc) ∧
      (∀ y, y ∈ idxs.foldl insertUniqueSorted acc ↔ y ∈ idxs ∨ y ∈ acc) := by
  induction idxs generalizing acc with
  | nil => simpa using hacc
  | cons x xs ih =>
    obtain ⟨hs, hm⟩ := ih (insertUniqueSorted acc x) (insertUniqueSorted_sorted hacc)
    refine ⟨hs, fun y => ?_⟩
    rw [List.foldl_cons, hm y, insertUniqueSorted_mem]
    simp only [List.mem_cons]
    tauto

theorem gatherUniqueIndices_sorted (idxs : List Nat) :
    List.Sorted (· < ·) (gatherUniqueIndices idxs) :=
  (gatherUniqueIndices_aux idxs [] (by simp)).1

theorem gatherUniqueIndices_mem (idxs : List Nat) (y : Nat) :
    y ∈ gatherUniqueIndices idxs ↔ y ∈ idxs := by
  have := (gatherUniqueIndices_aux idxs [] (by simp)).2 y
  simpa [gatherUniqueIndices] using this

theorem addImplicitZero_sorted {numRead reqCount : Nat} {l : List Nat}
    (h : List.Sorted (· < ·) l) :
    List.Sorted (· < ·) (addImplicitZero numRead reqCount l) := by
  unfold addImplicitZero
  split
  · next hc =>
    rcases hc.2 with rfl | hne
    · simp
    · cases l with
      | nil => simp
      | cons z zs =>
        refine List.sorted_cons.mpr ⟨?_, h⟩
        intro b hb
        simp only [List.headI] at hne
        have hz := (List.sorted_cons.mp h).1
        rcases List.mem_cons.mp hb with rfl | hb
        · omega
        · have := hz b hb
          omega
  · exact h

theorem uniqueIndices_sorted (reqCount : Nat) (idxdata : List Nat) :
    List.Sorted (· < ·) (uniqueIndices reqCount idxdata) :=
  addImplicitZero_sorted (gatherUniqueIndices_sorted _)

theorem uniqueIndices_mem_of_read {reqCount : Nat} {idxdata : List Nat} {v : Nat}
    (hv : v ∈ idxdata.take reqCount) :
    v ∈ uniqueIndices reqCount idxdata := by
  unfold uniqueIndices addImplicitZero
  have hg : v ∈ gatherUniqueIndices (idxdata.take reqCount) :=
    (gatherUniqueIndices_mem _ v).mpr hv
  split
  · exact List.mem_cons_of_mem _ hg
  · exact hg

theorem uniqueIndices_mem_bound {reqCount : Nat} {idxdata : List Nat} {w : Nat}
    (hvals : ∀ v ∈ idxdata, v < 2 ^ w) :
    ∀ v ∈ uniqueIndices reqCount idxdata, v < 2 ^ w := by
  intro v hv
  unfold uniqueIndices addImplicitZero at hv
  have hpow : 0 < 2 ^ w := Nat.pos_pow_of_pos _ (by omega)
  split at hv
  · rcases List.mem_cons.mp hv with rfl | hv
    · exact hpow
    · exact hvals v (List.mem_of_mem_take ((gatherUniqueIndices_mem _ v).mp hv))
  · exact hvals v (List.mem_of_mem_take ((gatherUniqueIndices_mem _ v).mp hv))

theorem sorted_length_le_pow {l : List Nat} {w : Nat}
    (hs : List.Sorted (· < ·) l) (hb : ∀ v ∈ l, v < 2 ^ w) :
    l.length ≤ 2 ^ w := by
  have hnd : l.Nodup := hs.nodup
  have hcard : l.toFinset.card = l.length := List.toFinset_card_of_nodup hnd
  have hsub : l.toFinset ⊆ Finset.range (2 ^ w) := by
    intro v hv
    rw [Finset.mem_range]
    exact hb v (List.mem_toFinset.mp hv)
  calc l.length = l.toFinset.card := hcard.symm
    _ ≤ (Finset.range (2 ^ w)).card := Finset.card_le_card hsub
    _ = 2 ^ w := Finset.card_range _

/-- C1: for every indexed draw, the rebase pass builds a sorted array of the
unique referenced index values; the remap's codomain is exactly
`[0, uniqueCount)` and it is injective on the unique values; rewriting the
copied index buffer through the remap and composing with the original
unique-index ordering reconstructs the original indexed vertex sequence,
except that indices equal to a nonzero configured primitive-restart sentinel
are left unchanged; and if fewer indices were readable than requested an
implicit index 0 is in the unique set. -/
theorem C1_index_rebase (bitWidth reqCount : Nat) (cut : IBStripCutValue)
    (idxdata : List Nat)
    (hvals : ∀ v ∈ idxdata, v < 2 ^ bitWidth) :
    List.Sorted (· < ·) (uniqueIndices reqCount idxdata) ∧
    (∀ v ∈ uniqueIndices reqCount idxdata,
      indexRemap (uniqueIndices reqCount idxdata) v <
        (uniqueIndices reqCount idxdata).length) ∧
    (∀ v ∈ uniqueIndices reqCount idxdata, ∀ w ∈ uniqueIndices reqCount idxdata,
      indexRemap (uniqueIndices reqCount idxdata) v =
        indexRemap (uniqueIndices reqCount idxdata) w → v = w) ∧
    (∀ k < (uniqueIndices reqCount idxdata).length,
      ∃ v ∈ uniqueIndices reqCount idxdata,
        indexRemap (uniqueIndices reqCount idxdata) v = k) ∧
    (∀ i v, (idxdata.take reqCount).get? i = some v →
      ((stripCutOf cut ≠ 0 ∧ v = stripCutOf cut) →
        (rewriteIndices bitWidth (stripCutOf cut) (uniqueIndices reqCount idxdata)
          (idxdata.take reqCount)).get? i = some v) ∧
      (¬(stripCutOf cut ≠ 0 ∧ v = stripCutOf cut) →
        ∃ r, (rewriteIndices bitWidth (stripCutOf cut) (uniqueIndices reqCount idxdata)
          (idxdata.take reqCount)).get? i = some r ∧
          (uniqueIndices reqCount idxdata).get? r = some v)) ∧
    ((idxdata.take reqCount).length < reqCount → 0 ∈ uniqueIndices reqCount idxdata) := by
  set unique := uniqueIndices reqCount idxdata with hunique
  have hsorted : List.Sorted (· < ·) unique := uniqueIndices_sorted reqCount idxdata
  have hnodup : unique.Nodup := hsorted.nodup
  have hbound : ∀ v ∈ unique, v < 2 ^ bitWidth := uniqueIndices_mem_bound hvals
  have hlen : unique.length ≤ 2 ^ bitWidth := sorted_length_le_pow hsorted hbound
  refine ⟨hsorted, ?_, ?_, ?_, ?_, ?_⟩
  · intro v hv
    exact List.indexOf_lt_length.mpr hv
  · intro v hv w hw heq
    have h1 : unique.get ⟨unique.indexOf v, List.indexOf_lt_length.mpr hv⟩ = v :=
      List.indexOf_get _
    have h2 : unique.get ⟨unique.indexOf w, List.indexOf_lt_length.mpr hw⟩ = w :=
      List.indexOf_get _
    rw [← h1, ← h2]
    simp only [indexRemap] at heq
    simp [heq]
  · intro k hk
    refine ⟨unique.get ⟨k, hk⟩, List.get_mem _ _ _, ?_⟩
    exact List.get_indexOf hnodup ⟨k, hk⟩
  · intro i v hget
    have hvmem : v ∈ idxdata.take reqCount := List.get?_mem hget
    have hvu : v ∈ unique := uniqueIndices_mem_of_read hvmem
    constructor
    · intro hcut
      simp only [rewriteIndices, List.get?_map, hget, Option.map_some]
      simp [hcut.1, hcut.2]
    · intro hcut
      have hidx : unique.indexOf v < unique.length := List.indexOf_lt_length.mpr hvu
      have hmod : indexRemap unique v % 2 ^ bitWidth = indexRemap unique v :=
        Nat.mod_eq_of_lt (lt_of_lt_of_le hidx hlen)
      refine ⟨indexRemap unique v, ?_, ?_⟩
      · simp only [rewriteIndices, List.get?_map, hget, Option.map_some']
        rw [if_neg hcut, hmod]
      · simp only [indexRemap]
        rw [List.get?_eq_get hidx]
        exact congrArg some (List.indexOf_get _)
  · intro hshort
    have : 0 ∈ uniqueIndices reqCount idxdata := by
      unfold uniqueIndices addImplicitZero
      split
    
      · exact List.mem_cons_self _ _
      · next hc =>
        push_neg at hc
        have hne := hc hshort
        rcases hg : gatherUniqueIndices (idxdata.take reqCount) with _ | ⟨z, zs⟩
        · exact absurd hg (hne.1)
        · have hz : z = 0 := by
            have := hne.2
            rw [hg] at this
            simpa using this
          subst hz
          exact List.mem_cons_self _ _
    exact this

/-- Witness for C1 at a concrete indexed draw: 16-bit indices, duplicate and
sparse values, one 0xFFFF restart sentinel, and one fewer index available
than requested (so the implicit 0 must be present). -/
theorem C1_index_rebase_witness :
    0 ∈ uniqueIndices 7 [500, 501, 502, 0xffff, 501, 503] :=
  (C1_index_rebase 16 7 IBStripCutValue.cutFFFF [500, 501, 502, 0xffff, 501, 503]
    (by decide)).2.2.2.2.2 (by decide)

theorem foldl_buildSODecls_skip (sig : List SigParameter)
    (acc : List SODeclarationEntry × Nat × Int) :
    sig.foldl (buildSODeclsStep true) acc =
      (sig.filter fun s => s.stream == 0).foldl (buildSODeclsStep false) acc := by
  induction sig generalizing acc with
  | nil => rfl
  | cons s ss ih =>
    by_cases h : s.stream = 0
    · rw [List.foldl_cons, List.filter_cons_of_pos (by simpa using h), List.foldl_cons, ih]
      congr 1
      simp [buildSODeclsStep, h]
    · rw [List.foldl_cons, List.filter_cons_of_neg (by simpa using h), ih]
      congr 1
      simp [buildSODeclsStep, h]

theorem foldl_buildSODecls_noPos (sig : List SigParameter)
    (h : ∀ s ∈ sig, s.systemValue ≠ SysValue.position)
    (decls : List SODeclarationEntry) (stride : Nat) (posidx : Int) :
    ∃ stride2, sig.foldl (buildSODeclsStep false) (decls, stride, posidx) =
      (decls ++ sig.map mkSODecl, stride2, posidx) := by
  induction sig generalizing decls stride with
  | nil => exact ⟨stride, by simp⟩
  | cons s ss ih =>
    have hs : s.systemValue ≠ SysValue.position := h s (List.mem_cons_self _ _)
    obtain ⟨stride2, h2⟩ :=
      ih (fun t ht => h t (List.mem_cons_of_mem _ ht)) (decls ++ [mkSODecl s])
        (stride + (mkSODecl s).componentCount * 4)
    refine ⟨stride2, ?_⟩
    rw [List.foldl_cons]
    have hstep : buildSODeclsStep false (decls, stride, posidx) s =
        (decls ++ [mkSODecl s], stride + (mkSODecl s).componentCount * 4, posidx) := by
      simp [buildSODeclsStep, hs]
    rw [hstep, h2]
    simp

theorem get?_append_cons {α : Type} (l1 : List α) (x : α) (l2 : List α) :
    (l1 ++ x :: l2).get? l1.length = some x := by
  induction l1 with
  | nil => rfl
  | cons y ys ih => simpa using ih

theorem eraseIdx_append_cons {α : Type} (l1 : List α) (x : α) (l2 : List α) :
    (l1 ++ x :: l2).eraseIdx l1.length = l1 ++ l2 := by
  induction l1 with
  | nil => rfl
  | cons y ys ih => simpa [List.eraseIdx] using ih

theorem buildSODecls_split (pre post : List SigParameter) (posEntry : SigParameter)
    (hpre : ∀ s ∈ pre, s.systemValue ≠ SysValue.position)
    (hpost : ∀ s ∈ post, s.systemValue ≠ SysValue.position)
    (hpos : posEntry.systemValue = SysValue.position) :
    ∃ stride, buildSODecls false (pre ++ posEntry :: post) =
      (pre.map mkSODecl ++ mkSODecl posEntry :: post.map mkSODecl, stride,
        (pre.length : Int)) := by
  unfold buildSODecls
  rw [List.foldl_append]
  obtain ⟨s1, h1⟩ := foldl_buildSODecls_noPos pre hpre [] 0 (-1)
  simp only [List.nil_append] at h1
  rw [h1, List.foldl_cons]
  have hstep : buildSODeclsStep false (pre.map mkSODecl, s1, -1) posEntry =
      (pre.map mkSODecl ++ [mkSODecl posEntry],
        s1 + (mkSODecl posEntry).componentCount * 4,
        ((pre.map mkSODecl).length : Int)) := by
    simp [buildSODeclsStep, hpos]
  rw [hstep]
  obtain ⟨s2, h2⟩ := foldl_buildSODecls_noPos post hpost
    (pre.map mkSODecl ++ [mkSODecl posEntry])
    (s1 + (mkSODecl posEntry).componentCount * 4) (((pre.map mkSODecl).length : Int))
  rw [h2]
  refine ⟨s2, ?_⟩
  simp

/-- C2: for an output signature whose (stream-0, for the
geometry/tessellation builder) entries contain exactly one clip-space
position field, the built and shifted stream-output declaration list has the
position field at index 0 with component count exactly 4, the other fields
following in their original relative order; when the position field was
already first, the shift leaves the built list unchanged. -/
theorem C2_position_first (skipOtherStreams : Bool) (sig : List SigParameter)
    (pre post : List SigParameter) (posEntry : SigParameter)
    (hsplit : (if skipOtherStreams then sig.filter fun s => s.stream == 0 else sig)
      = pre ++ posEntry :: post)
    (hpre : ∀ s ∈ pre, s.systemValue ≠ SysValue.position)
    (hpost : ∀ s ∈ post, s.systemValue ≠ SysValue.position)
    (hpos : posEntry.systemValue = SysValue.position) :
    shiftPosFirst (buildSODecls skipOtherStreams sig).1
        (buildSODecls skipOtherStreams sig).2.2 =
      mkSODecl posEntry :: (pre ++ post).map mkSODecl ∧
    (mkSODecl posEntry).componentCount = 4 ∧
    (pre = [] → shiftPosFirst (buildSODecls skipOtherStreams sig).1
        (buildSODecls skipOtherStreams sig).2.2 = (buildSODecls skipOtherStreams sig).1) := by
  have hbuild : buildSODecls skipOtherStreams sig = buildSODecls false (pre ++ posEntry :: post) := by
    cases skipOtherStreams with
    | false => simpa using congrArg (buildSODecls false) hsplit
    | true =>
      unfold buildSODecls
      rw [foldl_buildSODecls_skip]
      simp only [Bool.true_eq] at hsplit
      rw [show (sig.filter fun s => s.stream == 0) = pre ++ posEntry :: post from by simpa using hsplit]
  obtain ⟨stride, hsp⟩ := buildSODecls_split pre post posEntry hpre hpost hpos
  rw [hbuild, hsp]
  dsimp only
  constructor
  · cases pre with
    | nil =>
      simp [shiftPosFirst]
    | cons p ps =>
      have hlen : ((p :: ps).map mkSODecl).length = (p :: ps).length := List.length_map _ _
      have hposidx : (0 : Int) < ((p :: ps).length : Int) := by
        simp
      rw [shiftPosFirst, if_pos hposidx]
      have htn : (((p :: ps).length : Int)).toNat = ((p :: ps).map mkSODecl).length := by
        rw [hlen]
        simp
      rw [htn, get?_append_cons, eraseIdx_append_cons]
      simp
  · constructor
    · simp [mkSODecl, hpos]
    · intro hnil
      subst hnil
      simp [shiftPosFirst]

/-- Witness for C2: a three-field vertex output signature with a 3-component
position declared second; the built declaration list must start with the
position at 4 components, followed by the two other fields in order. -/
theorem C2_position_first_witness :
    shiftPosFirst
        (buildSODecls false
          [SigParameter.mk "TEXCOORD" 0 2 SysValue.other 0,
           SigParameter.mk "SV_Position" 0 3 SysValue.position 0,
           SigParameter.mk "COLOR" 0 4 SysValue.other 0]).1
        (buildSODecls false
          [SigParameter.mk "TEXCOORD" 0 2 SysValue.other 0,
           SigParameter.mk "SV_Position" 0 3 SysValue.position 0,
           SigParameter.mk "COLOR" 0 4 SysValue.other 0]).2.2 =
      mkSODecl (SigParameter.mk "SV_Position" 0 3 SysValue.position 0) ::
        ([SigParameter.mk "TEXCOORD" 0 2 SysValue.other 0] ++
          [SigParameter.mk "COLOR" 0 4 SysValue.other 0]).map mkSODecl :=
  (C2_position_first false
    [SigParameter.mk "TEXCOORD" 0 2 SysValue.other 0,
     SigParameter.mk "SV_Position" 0 3 SysValue.position 0,
     SigParameter.mk "COLOR" 0 4 SysValue.other 0]
    [SigParameter.mk "TEXCOORD" 0 2 SysValue.other 0]
    [SigParameter.mk "COLOR" 0 4 SysValue.other 0]
    (SigParameter.mk "SV_Position" 0 3 SysValue.position 0)
    (by decide) (by decide) (by decide) (by decide)).1

/-- C10: the geometry/tessellation result topology is never a strip: the
fixup maps each of the four strip topologies to its list counterpart and
strips cannot survive it. -/
theorem C10_no_strip_topology (t : PrimitiveTopology) :
    (expandStripTopology t).isStrip = false ∧
    expandStripTopology PrimitiveTopology.triangleStrip = PrimitiveTopology.triangleList ∧
    expandStripTopology PrimitiveTopology.lineStrip = PrimitiveTopology.lineList ∧
    expandStripTopology PrimitiveTopology.triangleStripAdj =
      PrimitiveTopology.triangleListAdj ∧
    expandStripTopology PrimitiveTopology.lineStripAdj = PrimitiveTopology.lineListAdj := by
  refine ⟨?_, rfl, rfl, rfl, rfl⟩
  cases t <;> simp [expandStripTopology, PrimitiveTopology.isStrip]

theorem decodeInstLoop_get? (stride : Nat) (counters : List Nat) :
    ∀ (prev : Nat), List.Chain (· ≤ ·) prev counters → (∀ c ∈ counters, c < 2 ^ 64) →
    (∀ c ∈ counters, c / stride < 2 ^ 32) →
    ∀ i c, counters.get? i = some c →
      (decodeInstLoop stride prev counters).get? i =
        some ⟨(c - prevCounter prev counters i) / stride,
              prevCounter prev counters i⟩ := by
  induction counters with
  | nil =>
    intro prev _ _ _ i c h
    simp at h
  | cons c0 rest ih =>
    intro prev hchain hbound hsmall i c hget
    have hle : prev ≤ c0 := (List.chain_cons.mp hchain).1
    have hchain2 : List.Chain (· ≤ ·) c0 rest := (List.chain_cons.mp hchain).2
    have hc0 : c0 < 2 ^ 64 := hbound c0 (List.mem_cons_self _ _)
    cases i with
    | zero =>
      obtain rfl : c0 = c := by simpa using hget
      have hwrap : (c0 + 2 ^ 64 - prev) % 2 ^ 64 = c0 - prev := by
        have h1 : c0 + 2 ^ 64 - prev = (c0 - prev) + 2 ^ 64 := by omega
        rw [h1, Nat.add_mod_right]
        exact Nat.mod_eq_of_lt (by omega)
      have hdivle : (c0 - prev) / stride ≤ c0 / stride :=
        Nat.div_le_div_right (Nat.sub_le _ _)
      have hmod32 : (c0 - prev) / stride % 2 ^ 32 = (c0 - prev) / stride :=
        Nat.mod_eq_of_lt
          (lt_of_le_of_lt hdivle (hsmall c0 (List.mem_cons_self _ _)))
      have hhead : (decodeInstLoop stride prev (c0 :: rest)).get? 0 =
          some ⟨(c0 + 2 ^ 64 - prev) % 2 ^ 64 / stride % 2 ^ 32, prev⟩ := rfl
      rw [hhead, hwrap, hmod32]
      rfl
    | succ j =>
      have hget2 : rest.get? j = some c := by simpa using hget
      have := ih c0 hchain2 (fun d hd => hbound d (List.mem_cons_of_mem _ hd))
        (fun d hd => hsmall d (List.mem_cons_of_mem _ hd)) j c hget2
      have hprev : prevCounter prev (c0 :: rest) (j + 1) = prevCounter c0 rest j := by
        cases j with
        | zero => rfl
        | succ k => rfl
      rw [hprev]
      simpa [decodeInstLoop] using this

/-- C3: for cumulative (monotone, 64-bit) byte counters produced by the
incremental per-instance draws whose per-instance vertex counts fit the
32-bit `numVerts` field (so line 1251's `uint32_t` cast does not truncate),
the decoder derives instance `i`'s vertex count as
`(counter[i] - counter[i-1]) / stride` (with `counter[-1] = 0`) and its
buffer offset as `counter[i-1]`, and the total bytes written is the last
cumulative counter. -/
theorem C3_instance_decode (stride : Nat) (counters : List Nat)
    (hchain : List.Chain (· ≤ ·) 0 counters)
    (hbound : ∀ c ∈ counters, c < 2 ^ 64)
    (hsmall : ∀ c ∈ counters, c / stride < 2 ^ 32) :
    (∀ i c, counters.get? i = some c →
      (decodeInstLoop stride 0 counters).get? i =
        some ⟨(c - prevCounter 0 counters i) / stride, prevCounter 0 counters i⟩) ∧
    finalCumulative 0 counters = counters.getLastD 0 := by
  constructor
  · exact decodeInstLoop_get? stride counters 0 hchain hbound hsmall
  · have haux : ∀ (l : List Nat) (p : Nat), finalCumulative p l = l.getLastD p := by
      intro l
      induction l with
      | nil => intro p; rfl
      | cons c0 rest ih =>
        intro p
        rw [finalCumulative, ih c0]
        cases rest with
        | nil => rfl
        | cons d ds =>
          conv_rhs => rw [List.getLastD_cons]
    exact haux counters 0

/-- Witness for C3 at the spec's own example: five instances of three
9-byte-stride vertices give cumulative counters [27,54,81,108,135]; the
decoder recovers 3 vertices per instance and the correct offsets. -/
theorem C3_instance_decode_witness :
    (decodeInstLoop 9 0 [27, 54, 81, 108, 135]).get? 3 =
      some ⟨(108 - prevCounter 0 [27, 54, 81, 108, 135] 3) / 9,
            prevCounter 0 [27, 54, 81, 108, 135] 3⟩ ∧
    finalCumulative 0 [27, 54, 81, 108, 135] = [27, 54, 81, 108, 135].getLastD 0 :=
  ⟨(C3_instance_decode 9 [27, 54, 81, 108, 135]
      (by simp [List.chain_cons]) (by decide) (by decide)).1 3 108 (by decide),
   (C3_instance_decode 9 [27, 54, 81, 108, 135]
      (by simp [List.chain_cons]) (by decide) (by decide)).2⟩

/-- C9: whenever `CreateSOBuffers` fails — the pre-emptive rejection of a
size at or above 0xFFFF0000 bytes, or any of the four object-creation
failures — the pool capacity is reset to 0 and the routine returns failure;
on the near-4GB guard path no allocation call is made. -/
theorem C9_createSOBuffers_failure (size : Nat) (f : SOAllocFail)
    (h : 0xFFFF0000 ≤ size ∨ f.soBuffer = true ∨ f.stagingBuffer = true ∨
      f.patchedIndexBuffer = true ∨ f.queryHeap = true) :
    (createSOBuffers size f).ok = false ∧
    (createSOBuffers size f).newSize = 0 ∧
    (0xFFFF0000 ≤ size → (createSOBuffers size f).allocAttempts = 0) := by
  unfold createSOBuffers
  split_ifs <;> simp_all

/-- Witness for C9 exactly at the guard threshold with no injected
allocation failures: the call fails, resets the capacity, and attempts no
allocation. -/
theorem C9_createSOBuffers_failure_witness :
    (createSOBuffers 0xFFFF0000 ⟨false, false, false, false⟩).ok = false ∧
    (createSOBuffers 0xFFFF0000 ⟨false, false, false, false⟩).newSize = 0 ∧
    (createSOBuffers 0xFFFF0000 ⟨false, false, false, false⟩).allocAttempts = 0 := by
  have h := C9_createSOBuffers_failure 0xFFFF0000 ⟨false, false, false, false⟩
    (Or.inl (by decide))
  exact ⟨h.1, h.2.1, h.2.2 (by decide)⟩

theorem findNearFar_eq_find? (pos0 : Vec4) (rest : List Vec4) :
    findNearFar pos0 rest = (rest.find? (sampleAccepted pos0)).map (solveNearFar pos0) := by
  induction rest with
  | nil => rfl
  | cons pos rest ih =>
    by_cases h1 : |pos.w - pos0.w| > 1 / 100 ∧ |pos.z - pos0.z| > 1 / 100
    · by_cases h2 : (solveMC pos0 pos).1 = 1 ∨ (solveMC pos0 pos).2 = 0
      · have hacc : sampleAccepted pos0 pos = false := by
          unfold sampleAccepted
          rw [decide_eq_true h1, decide_eq_true h2]
          rfl
        rw [findNearFar, if_pos h1, if_pos h2, List.find?_cons_of_neg _ (by simp [hacc]), ih]
      · by_cases h3 : -(solveMC pos0 pos).2 / (solveMC pos0 pos).1 ≤ 1 / 1000000
        · have hacc : sampleAccepted pos0 pos = false := by
            unfold sampleAccepted
            rw [decide_eq_true h1, decide_eq_false h2, decide_eq_true h3]
            rfl
          rw [findNearFar, if_pos h1, if_neg h2, if_pos h3,
            List.find?_cons_of_neg _ (by simp [hacc]), ih]
        · have hacc : sampleAccepted pos0 pos = true := by
            unfold sampleAccepted
            rw [decide_eq_true h1, decide_eq_false h2, decide_eq_false h3]
            rfl
          rw [findNearFar, if_pos h1, if_neg h2, if_neg h3,
            List.find?_cons_of_pos _ (by simp [hacc])]
          rfl
    · have hacc : sampleAccepted pos0 pos = false := by
        unfold sampleAccepted
        rw [decide_eq_false h1]
        rfl
      rw [findNearFar, if_neg h1, List.find?_cons_of_neg _ (by simp [hacc]), ih]

/-- C4 (amended): the code's near/far inference returns the solution
`(-c/m, c/(1-m))` of the first sample that differs from the first sample by
more than 0.01 in both z and w and is not rejected (`m = 1`, `c = 0`, or
derived near plane ≤ 0.000001 — not merely non-positive); with no such
sample it returns `(z, FLT_MAX)` when the first sample has positive z with
w > z, and the defaults `(0.1, 100)` otherwise; the scan only runs for a
4-component position field. -/
theorem C4_near_far_amended (numPosComponents : Nat) (pos0 : Vec4) (rest : List Vec4) :
    deriveNearFar numPosComponents pos0 rest =
      match (if numPosComponents = 4
          then (rest.find? (sampleAccepted pos0)).map (solveNearFar pos0)
          else none) with
      | some nf => nf
      | none =>
        if pos0.z > 0 ∧ pos0.w > pos0.z then (pos0.z, fltMax)
        else (1 / 10, 100) := by
  unfold deriveNearFar
  rw [findNearFar_eq_find? pos0 rest]

/-- C4 (counterexample): at the sample pair `(w, z) = (1, -1 + 2⁻²²)` and
`(2, -2 + 2⁻²²)` the solve gives `m = -1`, `c = 2⁻²²`, so the derived near
plane `2⁻²²` is positive but at most 0.000001: the claim's scan accepts it
and returns `(2⁻²², 2⁻²³)`, while the code rejects it and keeps the defaults
`(0.1, 100)`. -/
theorem C4_near_far_counterexample :
    deriveNearFar 4 ⟨0, 0, -1 + 1 / 2 ^ 22, 1⟩ [⟨0, 0, -2 + 1 / 2 ^ 22, 2⟩] =
      (1 / 10, 100) ∧
    findNearFarClaimed ⟨0, 0, -1 + 1 / 2 ^ 22, 1⟩ [⟨0, 0, -2 + 1 / 2 ^ 22, 2⟩] =
      some (1 / 2 ^ 22, 1 / 2 ^ 23) ∧
    ((1 / 10 : ℚ), (100 : ℚ)) ≠ ((1 / 2 ^ 22 : ℚ), (1 / 2 ^ 23 : ℚ)) := by
  refine ⟨?_, ?_, by norm_num⟩
  · norm_num [deriveNearFar, findNearFar, solveMC, solveNearFar, abs]
  · norm_num [findNearFarClaimed, solveMC, solveNearFar, abs]

theorem gsDecodeTail_vsout (cfg : DrawConfig) (stride : Nat) (posidx : Int)
    (r : RunResult) :
    (gsDecodeTail cfg stride posidx r).vsout = r.vsout ∧
    (gsDecodeTail cfg stride posidx r).vsinTopo = r.vsinTopo := by
  simp only [gsDecodeTail]
  split_ifs <;> exact ⟨rfl, rfl⟩

theorem runGSPhase_vsout (cfg : DrawConfig) (r : RunResult) :
    (runGSPhase cfg r).vsout = r.vsout ∧
    (runGSPhase cfg r).vsinTopo = r.vsinTopo := by
  simp only [runGSPhase]
  split_ifs <;>
    first
      | exact ⟨rfl, rfl⟩
      | exact gsDecodeTail_vsout _ _ _ _

theorem initPostVS_vsout_gs_independent (cfg : DrawConfig) (g : GSOracle) :
    (initPostVSModel { cfg with gs := g }).vsout = (initPostVSModel cfg).vsout ∧
    (initPostVSModel { cfg with gs := g }).vsinTopo = (initPostVSModel cfg).vsinTopo := by
  have hvs : runVSPhase { cfg with gs := g } = runVSPhase cfg := rfl
  unfold initPostVSModel
  rw [hvs]
  cases hr : runVSPhase cfg with
  | inl r => exact ⟨rfl, rfl⟩
  | inr r =>
    dsimp only
    by_cases hl : cfg.hasGS ∨ cfg.hasDS
    · rw [if_pos hl, if_pos hl]
      exact ⟨(runGSPhase_vsout _ _).1.trans (runGSPhase_vsout _ _).1.symm,
             (runGSPhase_vsout _ _).2.trans (runGSPhase_vsout _ _).2.symm⟩
    · rw [if_neg hl, if_neg hl]
      exact ⟨rfl, rfl⟩

/-- C5 (counterexample): at a concrete draw with a geometry shader bound
whose stream-out root-signature creation fails, the vertex stage records the
failure and the routine returns: the geometry/tessellation capture is NOT
attempted, and its status reports the vertex-stage error — contradicting the
claim that a vertex-stage failure does not prevent the geometry/tessellation
stage from being attempted. -/
theorem C5_vs_failure_blocks_gs :
    (initPostVSModel rootSigFailConfig).vsout.status = SOStatus.rootSigFail ∧
    (initPostVSModel rootSigFailConfig).gsAttempted = false ∧
    (initPostVSModel rootSigFailConfig).gsout.status = SOStatus.vsProcessingError := by
  decide

set_option maxHeartbeats 1000000 in
theorem runVSPhase_inr_status (cfg : DrawConfig) (r : RunResult)
    (h : runVSPhase cfg = Sum.inr r) : r.vsout.status = SOStatus.ok := by
  by_cases h1 : cfg.pipeBound
  case neg => simp [runVSPhase, h1] at h
  by_cases h2 : cfg.isGraphics
  case neg => simp [runVSPhase, h1, h2] at h
  by_cases h3 : cfg.hasVS
  case neg => simp [runVSPhase, h1, h2, h3] at h
  by_cases h4 : cfg.numIndices = 0
  case pos => simp [runVSPhase, h1, h2, h3, h4] at h
  by_cases h5 : cfg.numInstances = 0
  case pos => simp [runVSPhase, h1, h2, h3, h4, h5] at h
  by_cases h6 : cfg.rootSigHasSOFlag = false ∧ cfg.vs.rootSigCreateOK = false
  case pos => simp [runVSPhase, h1, h2, h3, h4, h5, h6] at h
  by_cases h7 : cfg.vsOutputSig = []
  case pos =>
    simp [runVSPhase, h1, h2, h3, h4, h5, h6, h7] at h
    subst h
    rfl
  by_cases h8 : cfg.vs.pipeCreateOK
  case neg => simp [runVSPhase, h1, h2, h3, h4, h5, h6, h7, h8] at h
  simp [runVSPhase, h1, h2, h3, h4, h5, h6, h7, h8] at h
  repeat'
    first
      | exact Sum.noConfusion h
      | (injection h with h2; subst h2; rfl)
      | split at h

set_option maxHeartbeats 1000000 in
theorem runVSPhase_inl_fail (cfg : DrawConfig) (r : RunResult)
    (hlast : cfg.hasGS = true ∨ cfg.hasDS = true)
    (h : runVSPhase cfg = Sum.inl r)
    (hst : r.vsout.status = SOStatus.rootSigFail ∨
      r.vsout.status = SOStatus.vsPipeFail ∨
      r.vsout.status = SOStatus.vsOOM ∨
      r.vsout.status = SOStatus.vsMapFail) :
    r.gsAttempted = false ∧ r.gsout.status = SOStatus.vsProcessingError := by
  by_cases h1 : cfg.pipeBound
  case neg =>
    simp [runVSPhase, h1] at h
    subst h
    simp [setStatus, StageData.empty] at hst
  by_cases h2 : cfg.isGraphics
  case neg =>
    simp [runVSPhase, h1, h2] at h
    subst h
    simp [setStatus, StageData.empty] at hst
  by_cases h3 : cfg.hasVS
  case neg =>
    simp [runVSPhase, h1, h2, h3] at h
    subst h
    simp [setStatus, StageData.empty] at hst
  by_cases h4 : cfg.numIndices = 0
  case pos =>
    simp [runVSPhase, h1, h2, h3, h4] at h
    subst h
    simp [setStatus, StageData.empty] at hst
  by_cases h5 : cfg.numInstances = 0
  case pos =>
    simp [runVSPhase, h1, h2, h3, h4, h5] at h
    subst h
    simp [setStatus, StageData.empty] at hst
  by_cases h6 : cfg.rootSigHasSOFlag = false ∧ cfg.vs.rootSigCreateOK = false
  case pos =>
    simp [runVSPhase, h1, h2, h3, h4, h5, h6] at h
    subst h
    rcases hlast with hh | hh <;> (simp [hh, setStatus, StageData.empty]; done)
  by_cases h7 : cfg.vsOutputSig = []
  case pos =>
    simp [runVSPhase, h1, h2, h3, h4, h5, h6, h7] at h
  by_cases h8 : cfg.vs.pipeCreateOK
  case neg =>
    simp [runVSPhase, h1, h2, h3, h4, h5, h6, h7, h8] at h
    subst h
    rcases hlast with hh | hh <;> (simp [hh, setStatus, StageData.empty]; done)
  simp [runVSPhase, h1, h2, h3, h4, h5, h6, h7, h8] at h
  repeat'
    first
      | exact Sum.noConfusion h
      | (injection h with h2; subst h2;
         first
           | (rcases hlast with hh | hh <;> (simp [hh, setStatus, StageData.empty]; done))
           | (simp [setStatus, StageData.empty] at hst; done))
      | split at h

/-- C5 (amended): failure scoping is one-directional. A
geometry/tessellation-stage failure never disturbs the already-computed
vertex-stage result (the vertex result is independent of every
geometry-stage oracle outcome); but whenever the vertex stage records one of
its four failure statuses — root-signature creation (line 302), patched
pipeline creation (line 402), scratch-pool allocation (lines 434/533), or
staging-buffer map (line 670) — the routine has returned early: the
geometry/tessellation stage is not attempted and its status reports the
vertex-stage processing error. -/
theorem C5_failure_scoping (cfg : DrawConfig)
    (hlast : cfg.hasGS = true ∨ cfg.hasDS = true)
    (hfailst : (initPostVSModel cfg).vsout.status = SOStatus.rootSigFail ∨
      (initPostVSModel cfg).vsout.status = SOStatus.vsPipeFail ∨
      (initPostVSModel cfg).vsout.status = SOStatus.vsOOM ∨
      (initPostVSModel cfg).vsout.status = SOStatus.vsMapFail) :
    (∀ (cfg2 : DrawConfig) (g : GSOracle),
      (initPostVSModel { cfg2 with gs := g }).vsout = (initPostVSModel cfg2).vsout) ∧
    (initPostVSModel cfg).gsAttempted = false ∧
    (initPostVSModel cfg).gsout.status = SOStatus.vsProcessingError := by
  refine ⟨fun cfg2 g => (initPostVS_vsout_gs_independent cfg2 g).1, ?_⟩
  unfold initPostVSModel at hfailst ⊢
  cases hr : runVSPhase cfg with
  | inl r =>
    rw [hr] at hfailst
    dsimp only at hfailst ⊢
    exact runVSPhase_inl_fail cfg r hlast hr hfailst
  | inr r =>
    rw [hr] at hfailst
    dsimp only at hfailst
    have hok : r.vsout.status = SOStatus.ok := runVSPhase_inr_status cfg r hr
    by_cases hl : cfg.hasGS = true ∨ cfg.hasDS = true
    · rw [if_pos hl, (runGSPhase_vsout cfg r).1, hok] at hfailst
      rcases hfailst with hc | hc | hc | hc <;> exact absurd hc (by simp)
    · rw [if_neg hl, hok] at hfailst
      rcases hfailst with hc | hc | hc | hc <;> exact absurd hc (by simp)

/-- Witness for C5's amended theorem: all four vertex-stage failure kinds —
root-signature creation, pipeline creation, scratch-pool allocation, and
staging-buffer map — are exercised at concrete configurations, and each
leaves the geometry/tessellation stage unattempted with the vertex-stage
error reported on it. -/
theorem C5_failure_scoping_witness :
    ((initPostVSModel rootSigFailConfig).gsAttempted = false ∧
      (initPostVSModel rootSigFailConfig).gsout.status = SOStatus.vsProcessingError) ∧
    ((initPostVSModel vsPipeFailConfig).gsAttempted = false ∧
      (initPostVSModel vsPipeFailConfig).gsout.status = SOStatus.vsProcessingError) ∧
    ((initPostVSModel vsOOMConfig).gsAttempted = false ∧
      (initPostVSModel vsOOMConfig).gsout.status = SOStatus.vsProcessingError) ∧
    ((initPostVSModel vsMapFailConfig).gsAttempted = false ∧
      (initPostVSModel vsMapFailConfig).gsout.status = SOStatus.vsProcessingError) :=
  ⟨(C5_failure_scoping rootSigFailConfig (Or.inl rfl) (Or.inl (by decide))).2,
   (C5_failure_scoping vsPipeFailConfig (Or.inl rfl)
     (Or.inr (Or.inl (by decide)))).2,
   (C5_failure_scoping vsOOMConfig (Or.inl rfl)
     (Or.inr (Or.inr (Or.inl (by decide))))).2,
   (C5_failure_scoping vsMapFailConfig (Or.inl rfl)
     (Or.inr (Or.inr (Or.inr (by decide))))).2⟩

/-- C6 (code bug): the vertex-stage zero-bytes-written early return
(lines 680-687) exits while the staging buffer is still mapped: on a draw
whose vertex pass succeeds through the map but reads back zero bytes
written, the routine performs one successful map and no unmap before
returning. -/
theorem C6_staging_map_leak :
    (initPostVSModel zeroBytesConfig).stagingMaps = 1 ∧
    (initPostVSModel zeroBytesConfig).stagingUnmaps = 0 ∧
    (initPostVSModel zeroBytesConfig).vsout.status = SOStatus.noVertexData := by
  decide

/-- C7: when no pipeline is bound, the pipeline is not graphics, there is no
vertex shader, or the draw has zero indices/vertices or zero instances, both
stage results carry a non-empty descriptive status, no GPU work is issued,
no staging map happens, and the geometry/tessellation stage is never
attempted. -/
theorem C7_empty_draw_early_out (cfg : DrawConfig)
    (h : cfg.pipeBound = false ∨ cfg.isGraphics = false ∨ cfg.hasVS = false ∨
      cfg.numIndices = 0 ∨ cfg.numInstances = 0) :
    (initPostVSModel cfg).vsout.status ≠ SOStatus.ok ∧
    (initPostVSModel cfg).gsout.status ≠ SOStatus.ok ∧
    (initPostVSModel cfg).gpuSubmits = 0 ∧
    (initPostVSModel cfg).stagingMaps = 0 ∧
    (initPostVSModel cfg).gsAttempted = false := by
  unfold initPostVSModel runVSPhase
  by_cases h1 : cfg.pipeBound
  case neg => simp [h1, setStatus, StageData.empty]
  by_cases h2 : cfg.isGraphics
  case neg => simp [h1, h2, setStatus, StageData.empty]
  by_cases h3 : cfg.hasVS
  case neg => simp [h1, h2, h3, setStatus, StageData.empty]
  by_cases h4 : cfg.numIndices = 0
  case pos => simp [h1, h2, h3, h4, setStatus, StageData.empty]
  by_cases h5 : cfg.numInstances = 0
  case pos => simp [h1, h2, h3, h4, h5, setStatus, StageData.empty]
  simp [h1, h2, h3, h4, h5] at h

/-- Witness for C7 at a concrete zero-instance draw. -/
theorem C7_empty_draw_early_out_witness :
    (initPostVSModel zeroInstanceConfig).gpuSubmits = 0 ∧
    (initPostVSModel zeroInstanceConfig).gsout.status ≠ SOStatus.ok :=
  ⟨(C7_empty_draw_early_out zeroInstanceConfig (by decide)).2.2.1,
   (C7_empty_draw_early_out zeroInstanceConfig (by decide)).2.1⟩

/-- C8: after `alias(A, B)` is recorded, every lookup for B — capture
initialization and result retrieval — resolves B to A before consulting the
canonical cache: `getResult(B)` equals `getResult(A)` exactly, capture
initialization for B behaves as for A, this persists when A is captured
after the alias was declared, and a capture request for an already-cached
event returns without doing any work. -/
theorem C8_alias_resolution (s0 : PostVSCache) (A B : Nat)
    (hA : s0.aliasTable.lookup A = none) (hne : B ≠ A) :
    (∀ instID useGS,
      getPostVSBuffers (aliasPostVSBuffers s0 A B) B instID useGS =
        getPostVSBuffers (aliasPostVSBuffers s0 A B) A instID useGS) ∧
    (∀ capture,
      initPostVSCached (aliasPostVSBuffers s0 A B) B capture =
        initPostVSCached (aliasPostVSBuffers s0 A B) A capture) ∧
    (∀ capture instID useGS,
      getPostVSBuffers (initPostVSCached (aliasPostVSBuffers s0 A B) A capture).1
          B instID useGS =
        getPostVSBuffers (initPostVSCached (aliasPostVSBuffers s0 A B) A capture).1
          A instID useGS) ∧
    (∀ (s : PostVSCache) (eid : Nat) (capture : Nat → PostVSData),
      (s.cache.lookup (resolveAlias s.aliasTable eid)).isSome = true →
        initPostVSCached s eid capture = (s, false)) := by
  have htab : (aliasPostVSBuffers s0 A B).aliasTable = (B, A) :: s0.aliasTable := rfl
  have hrB : resolveAlias ((B, A) :: s0.aliasTable) B = A := by
    simp [resolveAlias, List.lookup]
  have hrA : resolveAlias ((B, A) :: s0.aliasTable) A = A := by
    have hab : (A == B) = false := beq_eq_false_iff_ne.mpr (Ne.symm hne)
    simp [resolveAlias, List.lookup, hab, hA]
  refine ⟨?_, ?_, ?_, ?_⟩
  · intro instID useGS
    simp only [getPostVSBuffers, htab, hrB, hrA]
  · intro capture
    simp only [initPostVSCached, htab, hrB, hrA]
  · intro capture instID useGS
    by_cases hc : ((aliasPostVSBuffers s0 A B).cache.lookup A).isSome
    · simp only [initPostVSCached, htab, hrA, if_pos hc]
      simp only [getPostVSBuffers, htab, hrB, hrA]
    · simp only [initPostVSCached, htab, hrA, if_neg hc]
      simp only [getPostVSBuffers, htab, hrB, hrA]
  · intro s eid capture hc
    simp only [initPostVSCached, if_pos hc]

/-- Witness for C8: event 5 aliased to the already-captured event 3 yields
the same retrieval result for both ids. -/
theorem C8_alias_resolution_witness :
    getPostVSBuffers (aliasPostVSBuffers exampleCache 3 5) 5 0 false =
      getPostVSBuffers (aliasPostVSBuffers exampleCache 3 5) 3 0 false :=
  (C8_alias_resolution exampleCache 3 5 (by decide) (by decide)).1 0 false

end RenderDoc
